import Mathlib

/-!
# Verification of the MIDI dispatch core (`src/sources/Services/Midi/MidiService.cpp`)

This file gives a shallow embedding of `MidiService.cpp` and settles the
claims of the specification against it.

Modelling conventions:
* The ring of queues `queues_[MIDI_MAX_BUFFERS]` is a `List (List MidiMessage)`;
  the header constant `MIDI_MAX_BUFFERS` (the array size, not present under
  `src/`) is the length of that list, fixed at construction.
* The C++ `int` fields `tickToFlush_` and `midiDelay_` are `Int`
  (`atoi` can return negative values).
* Calls into device objects (`Init`/`Start`/`Stop`/`Close`/`SendQueue`) are
  recorded in an event trace; the devices themselves are external
  collaborators, modelled from the spec's interface description (§6) as
  registry entries carrying the success/failure outcome of their
  `Init` (open) and `Start` calls.
* The invocation of `flushOutQueue` (a drain) is recorded as a `drain` event
  carrying the batch it drained; the actual handoff to the output device
  (`outDevice_->SendQueue`) is a separate `send` event, emitted only when an
  output device is bound.
* The mutex `queueMutex_` serialises the two timing domains; the claims under
  study are about sequential call sequences, so the lock itself has no
  observable effect in the model.
-/

/-- One 3-byte MIDI event (`MidiMessage` with `status_`, `data1_`, `data2_`). -/
structure MidiMessage where
  status : Nat
  data1 : Nat
  data2 : Nat
deriving DecidableEq, Repr

/-- Runtime state of a registry device (spec §4.3: Closed → Open → Running). -/
inductive DevState where
  | closed
  | opened
  | running
deriving DecidableEq, Repr

/-- Modelled from the spec: an input device of the registry, an external
collaborator specified only at its interface boundary (§6).  `initOk` is the
outcome of its `Init()` (open) call, `startOk` the outcome of `Start()`. -/
structure MidiInDevice where
  name : String
  initOk : Bool
  startOk : Bool
deriving DecidableEq, Repr

instance : Inhabited MidiInDevice := ⟨⟨"", false, false⟩⟩

/-- Observable events: device-lifecycle calls made by the service and the
drain/send activity of `flushOutQueue`. -/
inductive DevEvent where
  /-- `flushOutQueue` ran and drained this batch from the ring. -/
  | drain (batch : List MidiMessage)
  /-- `outDevice_->SendQueue(batch)` was called. -/
  | send (batch : List MidiMessage)
  | inInit (i : Nat)
  | inStart (i : Nat)
  | inStop (i : Nat)
  | inClose (i : Nat)
  | outStop
  | outClose
deriving DecidableEq, Repr

/-- The fields of class `MidiService` relevant to the claims.
`inDevice : Option Nat` is the `inDevice_` pointer, as an index into
`inList` (`none` = `NULL`); `devStates` tracks each registry input device's
runtime state; `outDevice : Bool` is whether `outDevice_` is non-null. -/
structure MidiServiceState where
  currentPlayQueue : Nat
  currentOutQueue : Nat
  queues : List (List MidiMessage)
  tickToFlush : Int
  midiDelay : Int
  sendSync : Bool
  deviceName : String
  inList : List MidiInDevice
  devStates : List DevState
  inDevice : Option Nat
  outDevice : Bool
deriving DecidableEq, Repr

namespace MidiService

/-- The optional sign accepted by C `atoi` after leading whitespace. -/
def atoiSign (cs : List Char) : Int × List Char :=
  match cs with
  | '-' :: t => (-1, t)
  | '+' :: t => (1, t)
  | _ => (1, cs)

/-- C `atoi`: skip leading whitespace, optional sign, then the longest run of
decimal digits; no digits yields 0. -/
def atoi (s : String) : Int :=
  let signed := atoiSign (s.data.dropWhile Char.isWhitespace)
  let ds := signed.2.takeWhile Char.isDigit
  signed.1 * (ds.foldl (fun a c => a * 10 + (c.toNat - '0'.toNat)) 0 : Nat)

/-- `midiDelay_ = delay ? atoi(delay) : 1;` where `delay` is the raw
`MIDIDELAY` configuration value (`none` = key absent). -/
def midiDelayOfConfig (delay : Option String) : Int :=
  match delay with
  | some d => atoi d
  | none => 1

/-- `sendSync_` defaults to true; if `MIDISENDSYNC` is present it becomes
`strcmp(sendSync, "YES") == 0`. -/
def sendSyncOfConfig (sendSync : Option String) : Bool :=
  match sendSync with
  | some v => v = "YES"
  | none => true

/-- The constructor `MidiService::MidiService` with ring size `nBuf`
(= `MIDI_MAX_BUFFERS`, a header constant not under `src/`): all queues empty,
`inDevice_ = NULL`, `outDevice_ = NULL`.  The header's initialisers for the
cursors and `tickToFlush_` are not under `src/`; modelled from the spec:
both cursors start at slot 0 and the flush scheduler starts Idle
(`remainingTicks = 0`). -/
def mkMidiService (nBuf : Nat) (inList : List MidiInDevice)
    (delayCfg sendSyncCfg : Option String) : MidiServiceState :=
  { currentPlayQueue := 0
    currentOutQueue := 0
    queues := List.replicate nBuf []
    tickToFlush := 0
    midiDelay := midiDelayOfConfig delayCfg
    sendSync := sendSyncOfConfig sendSyncCfg
    deviceName := ""
    inList := inList
    devStates := List.replicate inList.length .closed
    inDevice := none
    outDevice := false }

/-- `MidiService::Start`: `currentPlayQueue_ = 0; currentOutQueue_ = 0; return true;` -/
def Start (s : MidiServiceState) : MidiServiceState × Bool :=
  ({ s with currentPlayQueue := 0, currentOutQueue := 0 }, true)

/-- `MidiService::stopOutDevice`: stop and close `outDevice_` if bound, then
`outDevice_ = 0`. -/
def stopOutDevice (s : MidiServiceState) : MidiServiceState × List DevEvent :=
  if s.outDevice then
    ({ s with outDevice := false }, [.outStop, .outClose])
  else
    ({ s with outDevice := false }, [])

/-- `MidiService::Stop() { stopOutDevice(); }` -/
def Stop (s : MidiServiceState) : MidiServiceState × List DevEvent :=
  stopOutDevice s

/-- `MidiService::QueueMessage`: if an output device is bound, append a copy
of the message to the queue at `currentPlayQueue_`. -/
def QueueMessage (s : MidiServiceState) (m : MidiMessage) : MidiServiceState :=
  if s.outDevice then
    let queue := s.queues.getD s.currentPlayQueue []
    { s with queues := s.queues.set s.currentPlayQueue (queue ++ [m]) }
  else s

/-- `MidiService::AdvancePlayQueue`: advance the write cursor mod
`MIDI_MAX_BUFFERS`, then empty the new current queue. -/
def AdvancePlayQueue (s : MidiServiceState) : MidiServiceState :=
  let p := (s.currentPlayQueue + 1) % s.queues.length
  { s with currentPlayQueue := p, queues := s.queues.set p [] }

/-- `MidiService::flushOutQueue`: advance the read cursor mod
`MIDI_MAX_BUFFERS`, send the queue now under it to the output device if one
is bound, then empty that queue. -/
def flushOutQueue (s : MidiServiceState) : MidiServiceState × List DevEvent :=
  let o := (s.currentOutQueue + 1) % s.queues.length
  let flushQueue := s.queues.getD o []
  ({ s with currentOutQueue := o, queues := s.queues.set o [] },
   .drain flushQueue :: (if s.outDevice then [.send flushQueue] else []))

/-- `MidiService::onAudioTick`: `if (tickToFlush_ > 0) { if (--tickToFlush_ == 0) flushOutQueue(); }` -/
def onAudioTick (s : MidiServiceState) : MidiServiceState × List DevEvent :=
  if s.tickToFlush > 0 then
    let t := s.tickToFlush - 1
    if t = 0 then flushOutQueue { s with tickToFlush := t }
    else ({ s with tickToFlush := t }, [])
  else (s, [])

/-- `MidiService::Flush`: `tickToFlush_ = midiDelay_; if (tickToFlush_ == 0) flushOutQueue();` -/
def Flush (s : MidiServiceState) : MidiServiceState × List DevEvent :=
  let s1 := { s with tickToFlush := s.midiDelay }
  if s1.tickToFlush = 0 then flushOutQueue s1 else (s1, [])

end MidiService

/-- The operations the playback engine and the audio driver may call on the
hot path (spec §6). -/
inductive MidiOp where
  /-- `AdvancePlayQueue` (the spec's `advanceWrite`). -/
  | advance
  /-- `QueueMessage m` (the spec's `enqueue`). -/
  | enqueue (m : MidiMessage)
  /-- `Flush` (the spec's `requestFlush(configuredDelayTicks)`). -/
  | flush
  /-- `onAudioTick` (the spec's `onTick`). -/
  | tick
deriving DecidableEq, Repr

namespace MidiService

/-- Apply one hot-path operation, returning the new state and the events it
emitted. -/
def applyOp (s : MidiServiceState) : MidiOp → MidiServiceState × List DevEvent
  | .advance => (AdvancePlayQueue s, [])
  | .enqueue m => (QueueMessage s m, [])
  | .flush => Flush s
  | .tick => onAudioTick s

/-- Run a sequence of hot-path operations, accumulating the event trace. -/
def runOps (s : MidiServiceState) : List MidiOp → MidiServiceState × List DevEvent
  | [] => (s, [])
  | op :: rest =>
    let r := applyOp s op
    let r' := runOps r.1 rest
    (r'.1, r.2 ++ r'.2)

/-- The batches handed to `outDevice_->SendQueue` in an event trace. -/
def sentBatches (evs : List DevEvent) : List (List MidiMessage) :=
  evs.filterMap fun e =>
    match e with
    | .send b => some b
    | _ => none

/-- The batches drained by `flushOutQueue` in an event trace (whether or not
an output device was bound to receive them). -/
def drainBatches (evs : List DevEvent) : List (List MidiMessage) :=
  evs.filterMap fun e =>
    match e with
    | .drain b => some b
    | _ => none

/-- Modelled from the spec: effect of `Stop()` on a device's runtime state
(§4.3 Running → Stopped; stopping a non-running device changes nothing). -/
def stopDevState : DevState → DevState
  | .running => .opened
  | d => d

/-- One iteration of the search loop in `MidiService::SelectDevice` at
registry index `i`: if the device's name matches, call `Init()`; on success
set `inDevice_` and call `Start()`; on `Start()` failure call
`inDevice_->Close()` (the source does not reset `inDevice_` here). -/
def selectStep (name : String) (acc : MidiServiceState × List DevEvent)
    (i : Nat) : MidiServiceState × List DevEvent :=
  let s := acc.1
  let dev := s.inList.getD i default
  if name = dev.name then
    if dev.initOk then
      let s1 := { s with devStates := s.devStates.set i .opened,
                         inDevice := some i }
      if dev.startOk then
        ({ s1 with devStates := s1.devStates.set i .running },
         acc.2 ++ [.inInit i, .inStart i])
      else
        ({ s1 with devStates := s1.devStates.set i .closed },
         acc.2 ++ [.inInit i, .inStart i, .inClose i])
    else
      (s, acc.2 ++ [.inInit i])
  else acc

/-- The `for (it->Begin(); !it->IsDone(); it->Next())` search loop of
`MidiService::SelectDevice` over the whole input-device registry. -/
def selectSearch (s : MidiServiceState) (name : String) :
    MidiServiceState × List DevEvent :=
  (List.range s.inList.length).foldl (selectStep name) (s, [])

/-- `MidiService::SelectDevice`: record `deviceName_ = name`; if an input
device is bound and its name differs, stop and close it and reset
`inDevice_` to `NULL`; if its name matches, skip the search (`skipStart`);
otherwise run the registry search loop.  The final `inDevice_ == NULL`
check only logs "not found" and has no state effect. -/
def SelectDevice (s : MidiServiceState) (name : String) :
    MidiServiceState × List DevEvent :=
  let s0 := { s with deviceName := name }
  match s0.inDevice with
  | some i =>
    let dname := (s0.inList.getD i default).name
    if name ≠ dname then
      let s1 := { s0 with
        devStates := (s0.devStates.set i (stopDevState (s0.devStates.getD i .closed))).set i .closed,
        inDevice := none }
      let r := selectSearch s1 name
      (r.1, [.inStop i, .inClose i] ++ r.2)
    else (s0, [])
  | none => selectSearch s0 name

/-- `MidiService::Close`: call `Stop()`, then `inDevice_->Stop()` and
`inDevice_->Close()` with no null check — `none` is the null-pointer
dereference of `inDevice_`. -/
def Close (s : MidiServiceState) : Option (MidiServiceState × List DevEvent) :=
  let r := Stop s
  match r.1.inDevice with
  | none => none
  | some i =>
    let s1 := { r.1 with
      devStates := (r.1.devStates.set i (stopDevState (r.1.devStates.getD i .closed))).set i .closed }
    some (s1, r.2 ++ [.inStop i, .inClose i])

end MidiService

/-! ## Concrete fixtures used by counterexamples and witnesses -/

/-- A freshly constructed and started service (`MidiService()` then
`Start()`) with ring size `nBuf`, configured delay `d` and an output device
bound. -/
def freshStarted (nBuf : Nat) (d : Int) : MidiServiceState :=
  (MidiService.Start
    { MidiService.mkMidiService nBuf [] none none with
        midiDelay := d, outDevice := true }).1

/-- A note-on message standing for the spec scenario's message `A`. -/
def msgA : MidiMessage := ⟨0x90, 60, 100⟩

/-- A note-on message standing for the spec scenario's message `B`. -/
def msgB : MidiMessage := ⟨0x90, 62, 100⟩

/-- A family of distinct messages for multi-step scenarios. -/
def msgN (n : Nat) : MidiMessage := ⟨0x90, n, 0⟩

/-- The §8 scenario call sequence: advanceWrite; enqueue(A); advanceWrite;
enqueue(B); requestFlush(2) (= `Flush` with `midiDelay_ = 2`); tick; tick. -/
def c1Ops : List MidiOp :=
  [.advance, .enqueue msgA, .advance, .enqueue msgB, .flush, .tick, .tick]

/-- A fresh (not yet started) service whose registry holds one input device
named `X` whose `Init()` succeeds and whose `Start()` fails. -/
def c4Init : MidiServiceState :=
  MidiService.mkMidiService 4 [⟨"X", true, false⟩] none none

/-- Five playback steps (advanceWrite; enqueue; requestFlush) with no audio
tick in between, on a ring of size 4 with configured delay 1. -/
def c2Ops : List MidiOp :=
  (List.range 5).flatMap fun k => [.advance, .enqueue (msgN (k + 1)), .flush]

/-- One complete write/flush cycle of the playback engine with configured
delay `d`: one `advanceWrite`, the step's enqueues, one `requestFlush`, and
the `d` audio ticks that let the armed flush fire before the next step
(for `d = 0` the flush fires synchronously and no tick is needed). -/
def cycleOps (d : Nat) (ms : List MidiMessage) : List MidiOp :=
  .advance :: (ms.map .enqueue ++ .flush :: List.replicate d .tick)

/-- A started service with delay 2 and a stale pending countdown of 5 ticks,
about to be re-armed. -/
def c6State : MidiServiceState :=
  { freshStarted 4 2 with tickToFlush := 5 }

/-- A started service with no output device bound and a pending batch in
slot 1. -/
def c7State : MidiServiceState :=
  { MidiService.mkMidiService 4 [] none none with
      queues := [[], [msgB], [], []] }

/-- The registry for the input-device selection claims: two devices that
open and start successfully. -/
def reg8 : List MidiInDevice := [⟨"X", true, true⟩, ⟨"Y", true, true⟩]

/-- A service that has successfully selected input device `X` (bound and
running). -/
def c8State : MidiServiceState :=
  (MidiService.SelectDevice (MidiService.mkMidiService 4 reg8 none none) "X").1

/-- A service stopped mid-ring: a message is parked in slot 1, the cursors
are away from 0, and an output device is bound. -/
def c10State : MidiServiceState :=
  { MidiService.mkMidiService 4 [] none none with
      queues := [[], [msgA], [], []],
      currentPlayQueue := 3, currentOutQueue := 2, outDevice := true }

/-! ## Claim theorems -/

open MidiService

/-! ### Helper lemmas about the flush scheduler and the run function -/

theorem runOps_append (s : MidiServiceState) (l1 l2 : List MidiOp) :
    runOps s (l1 ++ l2)
      = ((runOps (runOps s l1).1 l2).1,
         (runOps s l1).2 ++ (runOps (runOps s l1).1 l2).2) := by
  induction l1 generalizing s with
  | nil => simp [runOps]
  | cons op rest ih => simp [runOps, ih (applyOp s op).1, List.append_assoc]

theorem flushOutQueue_tickToFlush (s : MidiServiceState) :
    (flushOutQueue s).1.tickToFlush = s.tickToFlush := rfl

theorem runOps_ticks_no_drain (j : Nat) :
    ∀ (s : MidiServiceState) (k : Nat), s.tickToFlush = (k : Int) → j < k →
      runOps s (List.replicate j .tick)
        = ({ s with tickToFlush := ((k - j : Nat) : Int) }, []) := by
  induction j with
  | zero =>
    intro s k hk _
    simp [runOps, ← hk]
  | succ j ih =>
    intro s k hk hj
    have hpos : s.tickToFlush > 0 := by rw [hk]; exact_mod_cast Nat.pos_of_ne_zero (by omega)
    have hne : ¬ s.tickToFlush - 1 = 0 := by rw [hk]; omega
    rw [List.replicate_succ]
    show runOps s (.tick :: List.replicate j .tick) = _
    have h1 : onAudioTick s = ({ s with tickToFlush := s.tickToFlush - 1 }, []) := by
      simp [onAudioTick, if_pos hpos, if_neg hne]
    have h2 : ({ s with tickToFlush := s.tickToFlush - 1 } :
        MidiServiceState).tickToFlush = ((k - 1 : Nat) : Int) := by
      show s.tickToFlush - 1 = _
      rw [hk]; omega
    simp only [runOps, applyOp, h1]
    rw [ih _ (k - 1) h2 (by omega)]
    have h3 : (k - 1 - j : Nat) = (k - (j + 1) : Nat) := by omega
    simp [h3]

theorem runOps_ticks_drain (k : Nat) (s : MidiServiceState)
    (hk : s.tickToFlush = (k : Int)) (hpos : 0 < k) :
    runOps s (List.replicate k .tick) = flushOutQueue { s with tickToFlush := 0 } := by
  obtain ⟨j, rfl⟩ : ∃ j, k = j + 1 := ⟨k - 1, by omega⟩
  rw [List.replicate_succ', runOps_append,
    runOps_ticks_no_drain j s (j + 1) hk (by omega)]
  have hone : ((j + 1 - j : Nat) : Int) = 1 := by
    have : (j + 1 - j : Nat) = 1 := by omega
    rw [this]; rfl
  simp [runOps, applyOp, onAudioTick, hone]

theorem runOps_ticks_idle (m : Nat) :
    ∀ (s : MidiServiceState), s.tickToFlush ≤ 0 →
      runOps s (List.replicate m .tick) = (s, []) := by
  induction m with
  | zero => intro s _; rfl
  | succ m ih =>
    intro s h
    rw [List.replicate_succ]
    show runOps s (.tick :: List.replicate m .tick) = _
    have h1 : onAudioTick s = (s, []) := by
      simp [onAudioTick, if_neg (by omega : ¬ s.tickToFlush > 0)]
    simp [runOps, applyOp, h1, ih s h]

theorem drainBatches_flushOutQueue (s : MidiServiceState) :
    drainBatches (flushOutQueue s).2
      = [s.queues.getD ((s.currentOutQueue + 1) % s.queues.length) []] := by
  by_cases h : s.outDevice <;> simp [flushOutQueue, drainBatches, h]

/-- C1 counterexample: in the spec's §8 scenario (fresh started service,
output device bound, delay 2, ring size 4; advanceWrite; enqueue(A);
advanceWrite; enqueue(B); requestFlush(2); onTick; onTick) the batch handed
to the output device's send operation is `[A]`, not `[B]` as the claim
states. -/
theorem c1_scenario_counterexample :
    sentBatches (runOps (freshStarted 4 2) c1Ops).2 ≠ [[msgB]]
      ∧ sentBatches (runOps (freshStarted 4 2) c1Ops).2 = [[msgA]] := by
  decide

/-- C1 (amended): the call sequence produces exactly one drain, which occurs
at the second `onTick` (no event is emitted through the first tick), and the
batch handed to the output device is exactly `[A]` — the slot one past the
read cursor, holding the first step's messages — not `[B]`. -/
theorem c1_delay2_drains_first_step_batch :
    (runOps (freshStarted 4 2) (c1Ops.take 6)).2 = []
      ∧ (runOps (freshStarted 4 2) c1Ops).2 = [.drain [msgA], .send [msgA]]
      ∧ sentBatches (runOps (freshStarted 4 2) c1Ops).2 = [[msgA]] := by
  decide

/-- C2 counterexample: with configured delay `d = 1` and ring size `N = 4`
(so `d + 1 ≤ N`), the interleaving consisting of five playback steps with no
audio tick between them — allowed by the claim, which quantifies over every
interleaving — makes the write cursor advance onto slot 1 while the first
step's message is still there undrained (no drain has fired), and the fifth
step's `advanceWrite` erases it: the message is never sent and is in no
queue afterwards, so it is lost. -/
theorem c2_interleaving_counterexample :
    (runOps (freshStarted 4 1) (c2Ops.take 12)).1.queues.getD 1 [] = [msgN 1]
      ∧ (runOps (freshStarted 4 1) (c2Ops.take 12)).2 = []
      ∧ (runOps (freshStarted 4 1) (c2Ops.take 12)).1.currentPlayQueue = 0
      ∧ (runOps (freshStarted 4 1) c2Ops).2 = []
      ∧ ((runOps (freshStarted 4 1) c2Ops).1.queues.all
          fun q => decide (msgN 1 ∉ q)) = true := by
  decide

/-- C3 counterexample: with `MIDIDELAY` present but malformed (`"abc"`), the
constructor's `atoi` yields 0, so the configured delay is 0, not the
claimed fallback of 1. -/
theorem c3_malformed_counterexample :
    midiDelayOfConfig (some "abc") = 0 ∧ (0 : Int) ≠ 1 := by
  decide

/-- C3 (amended): when the `MIDIDELAY` value is present but malformed (after
whitespace and an optional sign there is no leading digit), construction
does not crash (`atoi` and the constructor are total) and the configured
delay becomes 0 — `atoi`'s value on such input; the default of 1 applies
only when the option is absent. -/
theorem c3_malformed_delay_is_zero (s : String)
    (h : (atoiSign (s.data.dropWhile Char.isWhitespace)).2.takeWhile
          Char.isDigit = []) :
    midiDelayOfConfig (some s) = 0 ∧ midiDelayOfConfig none = 1 := by
  refine ⟨?_, rfl⟩
  show atoi s = 0
  simp [atoi, h]

/-- Witness for `c3_malformed_delay_is_zero` at the concrete malformed value
`"abc"`. -/
theorem c3_malformed_delay_is_zero_witness :
    midiDelayOfConfig (some "abc") = 0 ∧ midiDelayOfConfig none = 1 :=
  c3_malformed_delay_is_zero "abc" (by decide)

/-- C4: evaluating `SelectDevice` at the failing input (fresh service whose
registry holds the device `X` with `Init()` succeeding and `Start()`
failing): the source closes the device again (events `Init`, `Start`,
`Close`, device state `closed`) but leaves `inDevice_` pointing at it
instead of resetting it to `NULL`, so an active input device remains bound,
contradicting the claim and the spec's "leave no active input device". -/
theorem c4_start_failure_leaves_device_bound :
    (SelectDevice c4Init "X").1.inDevice = some 0
      ∧ (SelectDevice c4Init "X").1.devStates = [.closed]
      ∧ (SelectDevice c4Init "X").2 = [.inInit 0, .inStart 0, .inClose 0] := by
  decide

/-- C5: `requestFlush` (`Flush`, with delay `midiDelay_`) with delay 0
performs the drain (`flushOutQueue`) synchronously before returning; with
delay `k > 0` it arms a countdown that drains at exactly the `k`-th
subsequent `onAudioTick` — no event before the `k`-th tick, the drain at
the `k`-th, and nothing on any tick after it; and an `onAudioTick` arriving
while no flush is armed (`tickToFlush_ = 0`) changes nothing. -/
theorem c5_requestFlush_timing (s : MidiServiceState) (k : Nat)
    (hd : s.midiDelay = (k : Int)) :
    (k = 0 → Flush s = flushOutQueue { s with tickToFlush := 0 })
    ∧ (0 < k →
        Flush s = ({ s with tickToFlush := (k : Int) }, [])
        ∧ (∀ j, j < k → (runOps (Flush s).1 (List.replicate j .tick)).2 = [])
        ∧ runOps (Flush s).1 (List.replicate k .tick)
            = flushOutQueue { s with tickToFlush := 0 }
        ∧ ∀ m, runOps (Flush s).1 (List.replicate (k + m) .tick)
            = runOps (Flush s).1 (List.replicate k .tick))
    ∧ (s.tickToFlush = 0 → onAudioTick s = (s, [])) := by
  refine ⟨?_, ?_, ?_⟩
  · intro hk0
    subst hk0
    simp [Flush, hd]
  · intro hkpos
    have hne : ¬ (k : Int) = 0 := by omega
    have hF : Flush s = ({ s with tickToFlush := (k : Int) }, []) := by
      simp [Flush, hd, hne]
    have hF1 : (Flush s).1 = { s with tickToFlush := (k : Int) } := by rw [hF]
    refine ⟨hF, ?_, ?_, ?_⟩
    · intro j hj
      rw [hF1,
        runOps_ticks_no_drain j { s with tickToFlush := (k : Int) } k rfl hj]
    · rw [hF1,
        runOps_ticks_drain k { s with tickToFlush := (k : Int) } rfl hkpos]
    · intro m
      rw [hF1, List.replicate_add, runOps_append,
        runOps_ticks_drain k { s with tickToFlush := (k : Int) } rfl hkpos,
        runOps_ticks_idle m
          ((flushOutQueue { s with tickToFlush := 0 }).1)
          (by rw [flushOutQueue_tickToFlush])]
      simp
  · intro h0
    simp [onAudioTick, h0]

/-- Witness for `c5_requestFlush_timing` at the §8 fixture (delay 2): no
event after one tick, the drain at the second tick, and a third tick is a
no-op. -/
theorem c5_requestFlush_timing_witness :
    (runOps (Flush (freshStarted 4 2)).1 (List.replicate 1 .tick)).2 = []
      ∧ runOps (Flush (freshStarted 4 2)).1 (List.replicate 2 .tick)
          = flushOutQueue { freshStarted 4 2 with tickToFlush := 0 }
      ∧ runOps (Flush (freshStarted 4 2)).1 (List.replicate (2 + 1) .tick)
          = runOps (Flush (freshStarted 4 2)).1 (List.replicate 2 .tick) := by
  have h := (c5_requestFlush_timing (freshStarted 4 2) 2 rfl).2.1 (by decide)
  exact ⟨h.2.1 1 (by decide), h.2.2.1, h.2.2.2 1⟩

/-- C6: calling `Flush` again while a countdown is in progress overwrites
`tickToFlush_` with `midiDelay_`, discarding the previously scheduled tick
count with no accumulation; and a single arm fires at most once — however
many ticks follow an arm, at most one batch is drained. -/
theorem c6_rearm_replaces_countdown (s : MidiServiceState) (k : Nat)
    (hd : s.midiDelay = (k : Int)) :
    (Flush s).1.tickToFlush = s.midiDelay
    ∧ ∀ m, (drainBatches (runOps { s with tickToFlush := (k : Int) }
        (List.replicate m .tick)).2).length ≤ 1 := by
  constructor
  · by_cases h0 : s.midiDelay = 0
    · simp [Flush, h0, flushOutQueue_tickToFlush]
    · simp [Flush, h0]
  · intro m
    rcases Nat.eq_zero_or_pos k with hk0 | hkpos
    · subst hk0
      rw [runOps_ticks_idle m { s with tickToFlush := ((0 : Nat) : Int) }
        (by simp)]
      simp [drainBatches]
    · by_cases hm : m < k
      · rw [runOps_ticks_no_drain m { s with tickToFlush := (k : Int) } k rfl hm]
        simp [drainBatches]
      · obtain ⟨r, rfl⟩ : ∃ r, m = k + r := ⟨m - k, by omega⟩
        rw [List.replicate_add, runOps_append,
          runOps_ticks_drain k { s with tickToFlush := (k : Int) } rfl hkpos,
          runOps_ticks_idle r
            ((flushOutQueue { s with tickToFlush := 0 }).1)
            (by rw [flushOutQueue_tickToFlush])]
        simp [drainBatches_flushOutQueue]

/-- Witness for `c6_rearm_replaces_countdown`: re-arming a service whose
pending countdown is 5 replaces it with the configured delay 2, and seven
subsequent ticks drain at most once. -/
theorem c6_rearm_replaces_countdown_witness :
    (Flush c6State).1.tickToFlush = c6State.midiDelay
      ∧ (drainBatches (runOps { c6State with tickToFlush := ((2 : Nat) : Int) }
          (List.replicate 7 .tick)).2).length ≤ 1 := by
  have h := c6_rearm_replaces_countdown c6State 2 rfl
  exact ⟨h.1, h.2 7⟩

/-! ### Helper lemmas for the ring-depth claim -/

theorem list_getD_set_self {α : Type} (l : List α) (n : Nat) (a d : α)
    (h : n < l.length) : (l.set n a).getD n d = a := by
  induction l generalizing n with
  | nil => simp at h
  | cons x xs ih =>
    cases n with
    | zero => rfl
    | succ n => simpa using ih n (by simpa using h)

theorem list_set_getD_self {α : Type} (l : List α) (n : Nat) (d : α) :
    l.set n (l.getD n d) = l := by
  induction l generalizing n with
  | nil => rfl
  | cons x xs ih =>
    cases n with
    | zero => rfl
    | succ n => simpa using ih n

theorem list_getD_replicate {α : Type} (n i : Nat) (a d : α) (h : i < n) :
    (List.replicate n a).getD i d = a := by
  induction n generalizing i with
  | zero => omega
  | succ n ih =>
    cases i with
    | zero => rfl
    | succ i =>
      rw [List.replicate_succ]
      simpa using ih i (by omega)

theorem list_set_replicate_self {α : Type} (n p : Nat) (a : α) :
    (List.replicate n a).set p a = List.replicate n a := by
  induction n generalizing p with
  | zero => rfl
  | succ n ih =>
    cases p with
    | zero => rfl
    | succ p => simp [List.replicate_succ, ih]

theorem runOps_enqueues (ms : List MidiMessage) :
    ∀ (s : MidiServiceState), s.outDevice = true →
      s.currentPlayQueue < s.queues.length →
      runOps s (ms.map .enqueue)
        = ({ s with queues := s.queues.set s.currentPlayQueue (s.queues.getD s.currentPlayQueue [] ++ ms) }, []) := by
  induction ms with
  | nil =>
    intro s hdev hp
    show (s, []) = _
    rw [List.append_nil, list_set_getD_self]
  | cons m ms ih =>
    intro s hdev hp
    obtain ⟨p0, o0, qs, t0, dly, sy, dn, il, ds, idv, od⟩ := s
    simp only at hdev hp
    subst hdev
    have hq : QueueMessage ⟨p0, o0, qs, t0, dly, sy, dn, il, ds, idv, true⟩ m
        = ⟨p0, o0, qs.set p0 (qs.getD p0 [] ++ [m]), t0, dly, sy, dn, il, ds,
           idv, true⟩ := by
      simp [QueueMessage]
    simp only [List.map_cons, runOps, applyOp, hq]
    rw [ih _ rfl (by simpa using hp)]
    simp only [list_getD_set_self qs p0 _ _ hp, List.set_set]
    simp

theorem runOps_cycle (d N : Nat) (ms : List MidiMessage)
    (p0 : Nat) (sy : Bool) (dn : String) (il : List MidiInDevice)
    (ds : List DevState) (idv : Option Nat) (hN : 0 < N) :
    runOps ⟨p0, p0, List.replicate N [], 0, (d : Int), sy, dn, il, ds, idv, true⟩ (cycleOps d ms)
      = (⟨(p0 + 1) % N, (p0 + 1) % N, List.replicate N [], 0, (d : Int), sy, dn, il, ds, idv, true⟩,
         [.drain ms, .send ms]) := by
  have hp1 : (p0 + 1) % N < N := Nat.mod_lt _ hN
  have hadv : AdvancePlayQueue ⟨p0, p0, List.replicate N [], 0, (d : Int), sy, dn, il, ds, idv, true⟩
      = ⟨(p0 + 1) % N, p0, List.replicate N [], 0, (d : Int), sy, dn, il, ds, idv, true⟩ := by
    dsimp only [AdvancePlayQueue]
    rw [List.length_replicate, list_set_replicate_self]
  have henq : runOps ⟨(p0 + 1) % N, p0, List.replicate N [], 0, (d : Int), sy, dn, il, ds, idv, true⟩ (ms.map .enqueue)
      = (⟨(p0 + 1) % N, p0, (List.replicate N []).set ((p0 + 1) % N) ms, 0, (d : Int), sy, dn, il, ds, idv, true⟩, []) := by
    rw [runOps_enqueues ms _ rfl (by simpa using hp1)]
    dsimp only
    rw [list_getD_replicate N ((p0 + 1) % N) [] [] hp1, List.nil_append]
  have hlen : ((List.replicate N ([] : List MidiMessage)).set ((p0 + 1) % N) ms).length = N := by
    rw [List.length_set, List.length_replicate]
  have hget : ((List.replicate N ([] : List MidiMessage)).set ((p0 + 1) % N) ms).getD ((p0 + 1) % N) [] = ms :=
    list_getD_set_self _ _ _ _ (by rw [List.length_replicate]; exact hp1)
  have hclear : ((List.replicate N ([] : List MidiMessage)).set ((p0 + 1) % N) ms).set ((p0 + 1) % N) [] = List.replicate N [] := by
    rw [List.set_set, list_set_replicate_self]
  have hflq : ∀ t0 : Int, flushOutQueue ⟨(p0 + 1) % N, p0, (List.replicate N []).set ((p0 + 1) % N) ms, t0, (d : Int), sy, dn, il, ds, idv, true⟩
      = (⟨(p0 + 1) % N, (p0 + 1) % N, List.replicate N [], t0, (d : Int), sy, dn, il, ds, idv, true⟩,
         [.drain ms, .send ms]) := by
    intro t0
    dsimp only [flushOutQueue]
    rw [hlen, hget, hclear]
    simp
  simp only [cycleOps, runOps, applyOp, hadv]
  rw [runOps_append, henq]
  dsimp only
  simp only [runOps, applyOp]
  rcases Nat.eq_zero_or_pos d with hd0 | hdpos
  · subst hd0
    have hFl : Flush ⟨(p0 + 1) % N, p0, (List.replicate N []).set ((p0 + 1) % N) ms, 0, ((0 : Nat) : Int), sy, dn, il, ds, idv, true⟩
        = (⟨(p0 + 1) % N, (p0 + 1) % N, List.replicate N [], ((0 : Nat) : Int), ((0 : Nat) : Int), sy, dn, il, ds, idv, true⟩,
           [.drain ms, .send ms]) := by
      dsimp only [Flush]
      rw [if_pos (by norm_num)]
      exact hflq _
    rw [hFl]
    simp [runOps]
  · have hne : ¬ ((d : Nat) : Int) = 0 := by omega
    have hFl : Flush ⟨(p0 + 1) % N, p0, (List.replicate N []).set ((p0 + 1) % N) ms, 0, (d : Int), sy, dn, il, ds, idv, true⟩
        = (⟨(p0 + 1) % N, p0, (List.replicate N []).set ((p0 + 1) % N) ms, (d : Int), (d : Int), sy, dn, il, ds, idv, true⟩, []) := by
      dsimp only [Flush]
      rw [if_neg hne]
    rw [hFl]
    dsimp only
    rw [runOps_ticks_drain d ⟨(p0 + 1) % N, p0, (List.replicate N []).set ((p0 + 1) % N) ms, (d : Int), (d : Int), sy, dn, il, ds, idv, true⟩ rfl hdpos]
    dsimp only
    rw [hflq 0]
    simp

theorem runOps_cycles (d N : Nat) (cycles : List (List MidiMessage)) (hN : 0 < N) :
    ∀ (p0 : Nat) (sy : Bool) (dn : String) (il : List MidiInDevice)
      (ds : List DevState) (idv : Option Nat), p0 < N →
      runOps ⟨p0, p0, List.replicate N [], 0, (d : Int), sy, dn, il, ds, idv, true⟩
          ((cycles.map (cycleOps d)).flatten)
        = (⟨(p0 + cycles.length) % N, (p0 + cycles.length) % N, List.replicate N [], 0, (d : Int), sy, dn, il, ds, idv, true⟩,
           (cycles.map fun ms => [DevEvent.drain ms, DevEvent.send ms]).flatten) := by
  induction cycles with
  | nil =>
    intro p0 sy dn il ds idv hp0
    simp [runOps, Nat.mod_eq_of_lt hp0]
  | cons ms rest ih =>
    intro p0 sy dn il ds idv hp0
    rw [List.map_cons, List.flatten_cons, runOps_append,
      runOps_cycle d N ms p0 sy dn il ds idv hN]
    dsimp only
    rw [ih ((p0 + 1) % N) sy dn il ds idv (Nat.mod_lt _ hN)]
    have hcur : ((p0 + 1) % N + rest.length) % N = (p0 + (ms :: rest).length) % N := by
      rw [Nat.mod_add_mod, List.length_cons]
      congr 1
      omega
    rw [hcur]
    simp

/-- C2 counterexample companion: the ring-depth property does hold for the
restricted interleavings in which each step's armed flush fires (its `d`
ticks elapse) before the next playback step begins.  Starting from a freshly
started service with an output device bound, ring size `nBuf` and configured
delay `d` with `d + 1 ≤ nBuf`, driving any number of such complete
write/flush cycles — in particular `nBuf + 1` of them — delivers every
cycle's messages to the output device exactly once, in order: no message is
lost or corrupted, and the write cursor never erases an undrained slot. -/
theorem c2_ring_no_loss (d nBuf : Nat) (cycles : List (List MidiMessage))
    (hdN : d + 1 ≤ nBuf) :
    (runOps (freshStarted nBuf (d : Int)) ((cycles.map (cycleOps d)).flatten)).2
      = (cycles.map fun ms => [DevEvent.drain ms, DevEvent.send ms]).flatten := by
  have hN : 0 < nBuf := by omega
  have hfs : freshStarted nBuf (d : Int)
      = ⟨0, 0, List.replicate nBuf [], 0, (d : Int), true, "", [], [], none, true⟩ := rfl
  rw [hfs, runOps_cycles d nBuf cycles hN 0 true "" [] [] none hN]

/-- Witness for `c2_ring_no_loss`: delay 1, ring size 4, five complete
cycles (one more than the ring size) carrying distinct messages, each
delivered exactly once in order. -/
theorem c2_ring_no_loss_witness :
    (runOps (freshStarted 4 ((1 : Nat) : Int))
        (([[msgN 1], [msgN 2], [msgN 3], [msgN 4], [msgN 5]].map (cycleOps 1)).flatten)).2
      = ([[msgN 1], [msgN 2], [msgN 3], [msgN 4], [msgN 5]].map fun ms =>
          [DevEvent.drain ms, DevEvent.send ms]).flatten :=
  c2_ring_no_loss 1 4 [[msgN 1], [msgN 2], [msgN 3], [msgN 4], [msgN 5]] (by decide)

/-- C7: when no output device is bound at the moment a drain fires,
`flushOutQueue` raises no error and sends nothing (the batch is discarded
silently — the only event is the drain itself), yet the read cursor is still
advanced and the drained slot still cleared, and the resulting ring state is
exactly the state a successful drain (device bound) would leave. -/
theorem c7_drain_without_device (s : MidiServiceState)
    (hdev : s.outDevice = false) (hN : 0 < s.queues.length) :
    (flushOutQueue s).2
        = [.drain (s.queues.getD ((s.currentOutQueue + 1) % s.queues.length) [])]
      ∧ sentBatches (flushOutQueue s).2 = []
      ∧ (flushOutQueue s).1.currentOutQueue
          = (s.currentOutQueue + 1) % s.queues.length
      ∧ (flushOutQueue s).1.queues.getD
          ((s.currentOutQueue + 1) % s.queues.length) [] = []
      ∧ (flushOutQueue { s with outDevice := true }).1
          = { (flushOutQueue s).1 with outDevice := true } := by
  refine ⟨?_, ?_, rfl, ?_, ?_⟩
  · simp [flushOutQueue, hdev]
  · simp [flushOutQueue, hdev, sentBatches]
  · show (s.queues.set ((s.currentOutQueue + 1) % s.queues.length) []).getD
        ((s.currentOutQueue + 1) % s.queues.length) [] = []
    exact list_getD_set_self _ _ _ _ (Nat.mod_lt _ hN)
  · rfl

/-- Witness for `c7_drain_without_device`: a service with no output device
and `[B]` parked in slot 1 drains it silently — cursor advanced, slot
cleared, same ring state as a bound-device drain. -/
theorem c7_drain_without_device_witness :
    (flushOutQueue c7State).2 = [.drain [msgB]]
      ∧ sentBatches (flushOutQueue c7State).2 = []
      ∧ (flushOutQueue c7State).1.currentOutQueue = 1
      ∧ (flushOutQueue c7State).1.queues.getD 1 [] = []
      ∧ (flushOutQueue { c7State with outDevice := true }).1
          = { (flushOutQueue c7State).1 with outDevice := true } :=
  c7_drain_without_device c7State rfl (by decide)

/-- C8: `SelectDevice` called while an input device is bound: if the
requested name equals the bound device's name, it is a no-op apart from
recording `deviceName_` — no device call at all is made (no stop/start
cycle, every device's runtime state untouched); if the name differs, the
old device is stopped and closed (and `inDevice_` cleared) strictly before
the registry search opens the new one. -/
theorem c8_select_same_vs_different (s : MidiServiceState) (i : Nat)
    (name : String) (hi : s.inDevice = some i) :
    (name = (s.inList.getD i default).name →
      SelectDevice s name = ({ s with deviceName := name }, []))
    ∧ (name ≠ (s.inList.getD i default).name →
      SelectDevice s name
        = ((selectSearch { s with deviceName := name, devStates := (s.devStates.set i (stopDevState (s.devStates.getD i .closed))).set i .closed, inDevice := none } name).1,
           .inStop i :: .inClose i :: (selectSearch { s with deviceName := name, devStates := (s.devStates.set i (stopDevState (s.devStates.getD i .closed))).set i .closed, inDevice := none } name).2)) := by
  constructor
  · intro h
    simp [SelectDevice, hi, h]
  · intro h
    simp only [List.getD_eq_getElem?_getD] at h
    simp [SelectDevice, hi, h]

/-- Witness for `c8_select_same_vs_different`: after successfully selecting
`X`, re-selecting `X` emits no device event and only re-records the name;
selecting `Y` instead stops and closes `X` before opening and starting
`Y`. -/
theorem c8_select_same_vs_different_witness :
    SelectDevice c8State "X" = ({ c8State with deviceName := "X" }, [])
      ∧ (SelectDevice c8State "Y").2
          = [.inStop 0, .inClose 0, .inInit 1, .inStart 1] := by
  refine ⟨(c8_select_same_vs_different c8State 0 "X" rfl).1 (by decide), ?_⟩
  have h := (c8_select_same_vs_different c8State 0 "Y" rfl).2 (by decide)
  rw [h]
  decide

/-- C9: `Close` calls `Stop()` and then unconditionally dereferences
`inDevice_`: for every state with no active input device the null-pointer
branch is reached (`none`), including the freshly constructed state, where
`inDevice_` is `NULL`; with an input device bound it is well defined. -/
theorem c9_close_null_deref (s : MidiServiceState) :
    (s.inDevice = none → Close s = none)
    ∧ (∀ i, s.inDevice = some i → Close s ≠ none)
    ∧ ∀ (nBuf : Nat) (inL : List MidiInDevice) (dcfg scfg : Option String),
        Close (mkMidiService nBuf inL dcfg scfg) = none := by
  refine ⟨?_, ?_, ?_⟩
  · intro h
    by_cases ho : s.outDevice <;> simp [Close, Stop, stopOutDevice, ho, h]
  · intro i h
    by_cases ho : s.outDevice <;> simp [Close, Stop, stopOutDevice, ho, h]
  · intro nBuf inL dcfg scfg
    rfl

/-- Witness for `c9_close_null_deref`: `Close` on a fresh service (no input
device ever started) hits the null dereference; `Close` after a successful
`SelectDevice` does not. -/
theorem c9_close_null_deref_witness :
    Close c4Init = none ∧ Close c8State ≠ none :=
  ⟨(c9_close_null_deref c4Init).1 rfl,
   (c9_close_null_deref c8State).2.1 0 rfl⟩

/-- C10: `Start` resets both cursors to slot 0 and returns true, changing
nothing else — every ring slot's content is untouched (also across a full
`Stop`/`Start` cycle, which additionally unbinds the output device), so a
message parked in slot 1 before the restart is still there and is delivered
by the first drain once an output device is bound again. -/
theorem c10_start_resets_cursors_only (s : MidiServiceState) (m : MidiMessage)
    (h1 : s.queues.getD 1 [] = [m]) (hN : 2 ≤ s.queues.length) :
    MidiService.Start s = ({ s with currentPlayQueue := 0, currentOutQueue := 0 }, true)
    ∧ (MidiService.Start (MidiService.Stop s).1).1
        = { s with currentPlayQueue := 0, currentOutQueue := 0, outDevice := false }
    ∧ (flushOutQueue { (MidiService.Start (MidiService.Stop s).1).1 with outDevice := true }).2
        = [.drain [m], .send [m]] := by
  have hmod : 1 % s.queues.length = 1 := Nat.mod_eq_of_lt (by omega)
  refine ⟨rfl, ?_, ?_⟩
  · by_cases ho : s.outDevice <;> simp [Start, Stop, stopOutDevice, ho]
  · simp only [List.getD_eq_getElem?_getD] at h1
    by_cases ho : s.outDevice <;>
      simp [Start, Stop, stopOutDevice, flushOutQueue, ho, hmod, h1]

/-- Witness for `c10_start_resets_cursors_only` at a service stopped
mid-ring with `[A]` parked in slot 1. -/
theorem c10_start_resets_cursors_only_witness :
    MidiService.Start c10State = ({ c10State with currentPlayQueue := 0, currentOutQueue := 0 }, true)
    ∧ (MidiService.Start (MidiService.Stop c10State).1).1
        = { c10State with currentPlayQueue := 0, currentOutQueue := 0, outDevice := false }
    ∧ (flushOutQueue { (MidiService.Start (MidiService.Stop c10State).1).1 with outDevice := true }).2
        = [.drain [msgA], .send [msgA]] :=
  c10_start_resets_cursors_only c10State msgA rfl (by decide)
